import Mathlib

/-!
Shallow embedding of `src/biomero_schema/models.py`.

The repository consists of pydantic v2 model declarations for BIOMERO
workflow manifests.  We embed the document layer as a JSON-like value
type, each pydantic model as a Lean structure (field names and order as
in the source), and the validation semantics pydantic gives those
declarations: alias lookup, `populate_by_name` on `WorkflowSchema.Config`
only, defaults taken without re-validation, `Literal` enums, error
collection across fields.  Serialization (`model_dump` with aliases, as
the spec requires alias-canonical output) is modelled as `dump…`
functions.  Error kinds follow the spec error taxonomy.
-/

namespace Biomero

/-- JSON-like document values: the key-value tree handed to validation.
Numbers are modelled as rationals (the source uses Python int/float). -/
inductive JVal : Type where
  | null : JVal
  | str : String → JVal
  | num : Rat → JVal
  | bool : Bool → JVal
  | arr : List JVal → JVal
  | obj : List (String × JVal) → JVal

/-- Validation error kinds, the taxonomy of the schema spec.
`invalidEnumValue` carries the offending value and the allowed set. -/
inductive ErrKind : Type where
  | missingRequiredField : ErrKind
  | typeMismatch : ErrKind
  | invalidEnumValue : String → List String → ErrKind
  | uniquenessViolation : ErrKind
  | crossFieldConstraintViolation : ErrKind
deriving DecidableEq, Repr

/-- A structured validation error: field path plus error kind. -/
structure VError : Type where
  path : List String
  kind : ErrKind
deriving DecidableEq, Repr

/-- Validation result: either a value or the collected list of errors. -/
abbrev V (α : Type) : Type := Except (List VError) α

/-- Error-collecting applicative combination (pydantic collects all
field errors of a model rather than stopping at the first). -/
def vseq {α β : Type} : V (α → β) → V α → V β
  | Except.ok f, Except.ok a => Except.ok (f a)
  | Except.error e1, Except.error e2 => Except.error (e1 ++ e2)
  | Except.error e1, Except.ok _ => Except.error e1
  | Except.ok _, Except.error e2 => Except.error e2

/-- Key lookup in an association list of document fields (first match,
as in a Python dict-derived mapping). -/
def lookupKey (k : String) : List (String × JVal) → Option JVal
  | [] => none
  | (kk, v) :: rest => if k = kk then some v else lookupKey k rest

/-- Lookup honouring `populate_by_name`: the alias is tried first, then
the internal field name (only `WorkflowSchema` enables this). -/
def lookupAliasOrName (al nm : String) (fs : List (String × JVal)) : Option JVal :=
  (lookupKey al fs).orElse fun _ => lookupKey nm fs

/- Literal enumerations of the source, as Lean enums with their literal
string sets. -/

/-- ContainerImage.type literals. -/
inductive ContainerType : Type where
  | oci : ContainerType
  | singularity : ContainerType
deriving DecidableEq, Repr

def containerTypeLiterals : List String := ["oci", "singularity"]

def ContainerType.ofString? (s : String) : Option ContainerType :=
  if s = "oci" then some ContainerType.oci
  else if s = "singularity" then some ContainerType.singularity
  else none

def ContainerType.toStr : ContainerType → String
  | ContainerType.oci => "oci"
  | ContainerType.singularity => "singularity"

/-- Parameter.type literals (nine, exactly as in the source). -/
inductive ParameterType : Type where
  | Number : ParameterType
  | String : ParameterType
  | integer : ParameterType
  | float : ParameterType
  | boolean : ParameterType
  | string : ParameterType
  | file : ParameterType
  | image : ParameterType
  | array : ParameterType
deriving DecidableEq, Repr

def parameterTypeLiterals : List String :=
  ["Number", "String", "integer", "float", "boolean", "string", "file", "image", "array"]

def parameterTypeOfString (s : String) : Option ParameterType :=
  if s = "Number" then some ParameterType.Number
  else if s = "String" then some ParameterType.String
  else if s = "integer" then some ParameterType.integer
  else if s = "float" then some ParameterType.float
  else if s = "boolean" then some ParameterType.boolean
  else if s = "string" then some ParameterType.string
  else if s = "file" then some ParameterType.file
  else if s = "image" then some ParameterType.image
  else if s = "array" then some ParameterType.array
  else none

def parameterTypeToStr : ParameterType → String
  | ParameterType.Number => "Number"
  | ParameterType.String => "String"
  | ParameterType.integer => "integer"
  | ParameterType.float => "float"
  | ParameterType.boolean => "boolean"
  | ParameterType.string => "string"
  | ParameterType.file => "file"
  | ParameterType.image => "image"
  | ParameterType.array => "array"

/-- OutputParameter.type literals. -/
inductive OutputParameterType : Type where
  | Number : OutputParameterType
  | String : OutputParameterType
deriving DecidableEq, Repr

def outputParameterTypeLiterals : List String := ["Number", "String"]

def outputParameterTypeOfString (s : String) : Option OutputParameterType :=
  if s = "Number" then some OutputParameterType.Number
  else if s = "String" then some OutputParameterType.String
  else none

def outputParameterTypeToStr : OutputParameterType → String
  | OutputParameterType.Number => "Number"
  | OutputParameterType.String => "String"

/-- WorkflowSchema.problem_class literals (nine). -/
inductive ProblemClass : Type where
  | object_segmentation : ProblemClass
  | pixel_classification : ProblemClass
  | object_counting : ProblemClass
  | object_detection : ProblemClass
  | filament_tree_tracing : ProblemClass
  | filament_networks_tracing : ProblemClass
  | landmark_detection : ProblemClass
  | particle_tracking : ProblemClass
  | object_tracking : ProblemClass
deriving DecidableEq, Repr

def problemClassLiterals : List String :=
  ["object-segmentation", "pixel-classification", "object-counting",
   "object-detection", "filament-tree-tracing", "filament-networks-tracing",
   "landmark-detection", "particle-tracking", "object-tracking"]

def ProblemClass.ofString? (s : String) : Option ProblemClass :=
  if s = "object-segmentation" then some ProblemClass.object_segmentation
  else if s = "pixel-classification" then some ProblemClass.pixel_classification
  else if s = "object-counting" then some ProblemClass.object_counting
  else if s = "object-detection" then some ProblemClass.object_detection
  else if s = "filament-tree-tracing" then some ProblemClass.filament_tree_tracing
  else if s = "filament-networks-tracing" then some ProblemClass.filament_networks_tracing
  else if s = "landmark-detection" then some ProblemClass.landmark_detection
  else if s = "particle-tracking" then some ProblemClass.particle_tracking
  else if s = "object-tracking" then some ProblemClass.object_tracking
  else none

def ProblemClass.toStr : ProblemClass → String
  | ProblemClass.object_segmentation => "object-segmentation"
  | ProblemClass.pixel_classification => "pixel-classification"
  | ProblemClass.object_counting => "object-counting"
  | ProblemClass.object_detection => "object-detection"
  | ProblemClass.filament_tree_tracing => "filament-tree-tracing"
  | ProblemClass.filament_networks_tracing => "filament-networks-tracing"
  | ProblemClass.landmark_detection => "landmark-detection"
  | ProblemClass.particle_tracking => "particle-tracking"
  | ProblemClass.object_tracking => "object-tracking"

/-- Parameter.default_value union: Union[str, int, float, bool]; the int
and float alternatives are merged into one rational number case, since
the document layer carries a single number shape. -/
inductive DefaultValue : Type where
  | s : String → DefaultValue
  | num : Rat → DefaultValue
  | b : Bool → DefaultValue
deriving DecidableEq, Repr

/-- CudaRequirements.cuda_compute_capability union: single value or list. -/
inductive CudaCC : Type where
  | single : String → CudaCC
  | multi : List String → CudaCC
deriving DecidableEq, Repr

/- The record structures, with the source field names and order. -/

/-- Author model. -/
structure Author : Type where
  name : String
  email : Option String
  affiliations : Option (List String)
deriving DecidableEq, Repr

/-- Institution model. -/
structure Institution : Type where
  id : String
  name : Option String
deriving DecidableEq, Repr

/-- Citation model. -/
structure Citation : Type where
  name : String
  doi : Option String
  license : String
  description : Option String
deriving DecidableEq, Repr

/-- Container image model. -/
structure ContainerImage : Type where
  image : String
  type : ContainerType
  platforms : Option (List String)
deriving DecidableEq, Repr

/-- CUDA requirements model. -/
structure CudaRequirements : Type where
  device_memory_min : Option Rat
  cuda_compute_capability : Option CudaCC
deriving DecidableEq, Repr

/-- Resources model. -/
structure Resources : Type where
  networking : Option Bool
  ram_min : Option Rat
  cores_min : Option Rat
  gpu : Option Bool
  cuda_requirements : Option CudaRequirements
  cpuAVX : Option Bool
  cpuAVX2 : Option Bool
deriving DecidableEq, Repr

/-- Configuration model. -/
structure Configuration : Type where
  input_folder : Option String
  output_folder : Option String
  resources : Option Resources
deriving DecidableEq, Repr

/-- File parameter specific fields.  Declared in the source but never
referenced by `Parameter` or `WorkflowSchema`. -/
structure FileParameter : Type where
  format : String
deriving DecidableEq, Repr

/-- Image sub-type literals of `ImageParameter`. -/
inductive ImageSubType : Type where
  | grayscale : ImageSubType
  | color : ImageSubType
  | binary : ImageSubType
  | labeled : ImageSubType
  | class_ : ImageSubType
deriving DecidableEq, Repr

def imageSubTypeLiterals : List String :=
  ["grayscale", "color", "binary", "labeled", "class"]

/-- Image format literals of `ImageParameter`. -/
inductive ImageFormat : Type where
  | tif : ImageFormat
  | png : ImageFormat
  | jpg : ImageFormat
  | jpeg : ImageFormat
  | tiff : ImageFormat
  | ometiff : ImageFormat
deriving DecidableEq, Repr

def imageFormatLiterals : List String :=
  ["tif", "png", "jpg", "jpeg", "tiff", "ometiff"]

/-- Image parameter specific fields.  Declared in the source but never
referenced by `Parameter` or `WorkflowSchema`. -/
structure ImageParameter : Type where
  sub_type : ImageSubType
  format : ImageFormat
deriving DecidableEq, Repr

def arrayFormatLiterals : List String := ["npy", "npz"]

/-- Array format literals of `ArrayParameter`. -/
inductive ArrayFormat : Type where
  | npy : ArrayFormat
  | npz : ArrayFormat
deriving DecidableEq, Repr

/-- Array parameter specific fields.  Declared in the source but never
referenced by `Parameter` or `WorkflowSchema`. -/
structure ArrayParameter : Type where
  format : ArrayFormat
deriving DecidableEq, Repr

/-- Parameter model.  Note that `format` and `sub_type` are plain
optional strings on `Parameter` itself, with no constraint tying them
to `type`. -/
structure Parameter : Type where
  id : String
  type : ParameterType
  name : Option String
  description : Option String
  value_key : Option String
  command_line_flag : Option String
  default_value : Option DefaultValue
  optional : Option Bool
  set_by_server : Option Bool
  format : Option String
  sub_type : Option String
deriving DecidableEq, Repr

/-- Output parameter model. -/
structure OutputParameter : Type where
  id : String
  type : OutputParameterType
  name : Option String
  description : Option String
  value_key : Option String
  command_line_flag : Option String
  default_value : Option DefaultValue
  optional : Option Bool
  set_by_server : Option Bool
deriving DecidableEq, Repr

/-- Main workflow schema model. -/
structure WorkflowSchema : Type where
  name : String
  description : String
  schema_version : String
  authors : List Author
  institutions : List Institution
  citations : List Citation
  problem_class : Option ProblemClass
  container_image : ContainerImage
  configuration : Option Configuration
  inputs : List Parameter
  outputs : List OutputParameter
  command_line : String
deriving DecidableEq, Repr

/- Field parsers: the per-field validation behaviour pydantic applies to
the declarations (required versus optional, type shape, literal sets). -/

/-- Required string field: absent is a missing-field error, a present
non-string is a type mismatch. -/
def reqStr (path : List String) : Option JVal → V String
  | some (JVal.str s) => Except.ok s
  | none => Except.error [⟨path, ErrKind.missingRequiredField⟩]
  | some _ => Except.error [⟨path, ErrKind.typeMismatch⟩]

/-- Optional string field: absent or null yields none (pydantic default
None is taken as-is). -/
def optStr (path : List String) : Option JVal → V (Option String)
  | none => Except.ok none
  | some JVal.null => Except.ok none
  | some (JVal.str s) => Except.ok (some s)
  | some _ => Except.error [⟨path, ErrKind.typeMismatch⟩]

/-- Optional number field (source type Optional float). -/
def optRat (path : List String) : Option JVal → V (Option Rat)
  | none => Except.ok none
  | some JVal.null => Except.ok none
  | some (JVal.num q) => Except.ok (some q)
  | some _ => Except.error [⟨path, ErrKind.typeMismatch⟩]

/-- Optional boolean field. -/
def optBool (path : List String) : Option JVal → V (Option Bool)
  | none => Except.ok none
  | some JVal.null => Except.ok none
  | some (JVal.bool b) => Except.ok (some b)
  | some _ => Except.error [⟨path, ErrKind.typeMismatch⟩]

/-- One element of a list-of-strings field. -/
def strElem (path : List String) : JVal → V String
  | JVal.str s => Except.ok s
  | _ => Except.error [⟨path, ErrKind.typeMismatch⟩]

/-- Elements of a list-of-strings field, with indexed error paths. -/
def strElems (path : List String) : Nat → List JVal → V (List String)
  | _, [] => Except.ok []
  | i, v :: rest =>
      vseq (vseq (Except.ok List.cons) (strElem (path ++ [toString i]) v))
        (strElems path (i + 1) rest)

/-- Optional list-of-strings field. -/
def optStrList (path : List String) : Option JVal → V (Option (List String))
  | none => Except.ok none
  | some JVal.null => Except.ok none
  | some (JVal.arr xs) => (strElems path 0 xs).map some
  | some _ => Except.error [⟨path, ErrKind.typeMismatch⟩]

/-- Required `Literal` field: a string outside the allowed set is an
invalid-enum-value error naming the value and the allowed set. -/
def reqEnum {E : Type} (ofS : String → Option E) (lits : List String)
    (path : List String) : Option JVal → V E
  | none => Except.error [⟨path, ErrKind.missingRequiredField⟩]
  | some (JVal.str s) =>
      match ofS s with
      | some e => Except.ok e
      | none => Except.error [⟨path, ErrKind.invalidEnumValue s lits⟩]
  | some _ => Except.error [⟨path, ErrKind.typeMismatch⟩]

/-- Optional `Literal` field. -/
def optEnum {E : Type} (ofS : String → Option E) (lits : List String)
    (path : List String) : Option JVal → V (Option E)
  | none => Except.ok none
  | some JVal.null => Except.ok none
  | some (JVal.str s) =>
      match ofS s with
      | some e => Except.ok (some e)
      | none => Except.error [⟨path, ErrKind.invalidEnumValue s lits⟩]
  | some _ => Except.error [⟨path, ErrKind.typeMismatch⟩]

/-- Optional Union[str, int, float, bool] field (Parameter.default_value). -/
def optDefaultValue (path : List String) : Option JVal → V (Option DefaultValue)
  | none => Except.ok none
  | some JVal.null => Except.ok none
  | some (JVal.str s) => Except.ok (some (DefaultValue.s s))
  | some (JVal.num q) => Except.ok (some (DefaultValue.num q))
  | some (JVal.bool b) => Except.ok (some (DefaultValue.b b))
  | some _ => Except.error [⟨path, ErrKind.typeMismatch⟩]

/-- Optional Union[str, List[str]] field (cuda_compute_capability). -/
def optCudaCC (path : List String) : Option JVal → V (Option CudaCC)
  | none => Except.ok none
  | some JVal.null => Except.ok none
  | some (JVal.str s) => Except.ok (some (CudaCC.single s))
  | some (JVal.arr xs) => (strElems path 0 xs).map fun l => some (CudaCC.multi l)
  | some _ => Except.error [⟨path, ErrKind.typeMismatch⟩]

/-- Elements of a list-of-models field, with indexed error paths,
collecting the errors of all elements. -/
def parseElems {α : Type} (p : List String → JVal → V α) (path : List String) :
    Nat → List JVal → V (List α)
  | _, [] => Except.ok []
  | i, v :: rest =>
      vseq (vseq (Except.ok List.cons) (p (path ++ [toString i]) v))
        (parseElems p path (i + 1) rest)

/-- List-of-models field with default []: absent yields the default. -/
def defModelList {α : Type} (p : List String → JVal → V α) (path : List String) :
    Option JVal → V (List α)
  | none => Except.ok []
  | some (JVal.arr xs) => parseElems p path 0 xs
  | some _ => Except.error [⟨path, ErrKind.typeMismatch⟩]

/-- Required list-of-models field (WorkflowSchema.inputs). -/
def reqModelList {α : Type} (p : List String → JVal → V α) (path : List String) :
    Option JVal → V (List α)
  | none => Except.error [⟨path, ErrKind.missingRequiredField⟩]
  | some (JVal.arr xs) => parseElems p path 0 xs
  | some _ => Except.error [⟨path, ErrKind.typeMismatch⟩]

/-- Optional nested-model field. -/
def optModel {α : Type} (p : List String → JVal → V α) (path : List String) :
    Option JVal → V (Option α)
  | none => Except.ok none
  | some JVal.null => Except.ok none
  | some v => (p path v).map some

/-- Required nested-model field. -/
def reqModel {α : Type} (p : List String → JVal → V α) (path : List String) :
    Option JVal → V α
  | none => Except.error [⟨path, ErrKind.missingRequiredField⟩]
  | some v => p path v

/- Model parsers: one per pydantic model, combining the field parsers in
declaration order.  Aliased fields of nested models are looked up by the
alias only, since `populate_by_name` is configured on `WorkflowSchema`
alone; `WorkflowSchema` fields accept the alias or the internal name. -/

/-- Validation of a document node against the Author model. -/
def parseAuthor (path : List String) (v : JVal) : V Author :=
  match v with
  | JVal.obj fs =>
      vseq (vseq (vseq (Except.ok Author.mk)
        (reqStr (path ++ ["name"]) (lookupKey "name" fs)))
        (optStr (path ++ ["email"]) (lookupKey "email" fs)))
        (optStrList (path ++ ["affiliations"]) (lookupKey "affiliations" fs))
  | _ => Except.error [⟨path, ErrKind.typeMismatch⟩]

/-- Validation of a document node against the Institution model. -/
def parseInstitution (path : List String) (v : JVal) : V Institution :=
  match v with
  | JVal.obj fs =>
      vseq (vseq (Except.ok Institution.mk)
        (reqStr (path ++ ["id"]) (lookupKey "id" fs)))
        (optStr (path ++ ["name"]) (lookupKey "name" fs))
  | _ => Except.error [⟨path, ErrKind.typeMismatch⟩]

/-- Validation of a document node against the Citation model. -/
def parseCitation (path : List String) (v : JVal) : V Citation :=
  match v with
  | JVal.obj fs =>
      vseq (vseq (vseq (vseq (Except.ok Citation.mk)
        (reqStr (path ++ ["name"]) (lookupKey "name" fs)))
        (optStr (path ++ ["doi"]) (lookupKey "doi" fs)))
        (reqStr (path ++ ["license"]) (lookupKey "license" fs)))
        (optStr (path ++ ["description"]) (lookupKey "description" fs))
  | _ => Except.error [⟨path, ErrKind.typeMismatch⟩]

/-- Validation of a document node against the ContainerImage model. -/
def parseContainerImage (path : List String) (v : JVal) : V ContainerImage :=
  match v with
  | JVal.obj fs =>
      vseq (vseq (vseq (Except.ok ContainerImage.mk)
        (reqStr (path ++ ["image"]) (lookupKey "image" fs)))
        (reqEnum ContainerType.ofString? containerTypeLiterals (path ++ ["type"])
          (lookupKey "type" fs)))
        (optStrList (path ++ ["platforms"]) (lookupKey "platforms" fs))
  | _ => Except.error [⟨path, ErrKind.typeMismatch⟩]

/-- Validation of a document node against the CudaRequirements model. -/
def parseCudaRequirements (path : List String) (v : JVal) : V CudaRequirements :=
  match v with
  | JVal.obj fs =>
      vseq (vseq (Except.ok CudaRequirements.mk)
        (optRat (path ++ ["device-memory-min"]) (lookupKey "device-memory-min" fs)))
        (optCudaCC (path ++ ["cuda-compute-capability"]) (lookupKey "cuda-compute-capability" fs))
  | _ => Except.error [⟨path, ErrKind.typeMismatch⟩]

/-- Validation of a document node against the Resources model. -/
def parseResources (path : List String) (v : JVal) : V Resources :=
  match v with
  | JVal.obj fs =>
      vseq (vseq (vseq (vseq (vseq (vseq (vseq (Except.ok Resources.mk)
        (optBool (path ++ ["networking"]) (lookupKey "networking" fs)))
        (optRat (path ++ ["ram-min"]) (lookupKey "ram-min" fs)))
        (optRat (path ++ ["cores-min"]) (lookupKey "cores-min" fs)))
        (optBool (path ++ ["gpu"]) (lookupKey "gpu" fs)))
        (optModel parseCudaRequirements (path ++ ["cuda-requirements"])
          (lookupKey "cuda-requirements" fs)))
        (optBool (path ++ ["cpuAVX"]) (lookupKey "cpuAVX" fs)))
        (optBool (path ++ ["cpuAVX2"]) (lookupKey "cpuAVX2" fs))
  | _ => Except.error [⟨path, ErrKind.typeMismatch⟩]

/-- Validation of a document node against the Configuration model
(input_folder and output_folder carry no alias in the source). -/
def parseConfiguration (path : List String) (v : JVal) : V Configuration :=
  match v with
  | JVal.obj fs =>
      vseq (vseq (vseq (Except.ok Configuration.mk)
        (optStr (path ++ ["input_folder"]) (lookupKey "input_folder" fs)))
        (optStr (path ++ ["output_folder"]) (lookupKey "output_folder" fs)))
        (optModel parseResources (path ++ ["resources"]) (lookupKey "resources" fs))
  | _ => Except.error [⟨path, ErrKind.typeMismatch⟩]

/- Small enum tables for the three parameter-kind helper models that the
source declares but never wires into Parameter or WorkflowSchema. -/

def imageSubTypeOfString (s : String) : Option ImageSubType :=
  if s = "grayscale" then some ImageSubType.grayscale
  else if s = "color" then some ImageSubType.color
  else if s = "binary" then some ImageSubType.binary
  else if s = "labeled" then some ImageSubType.labeled
  else if s = "class" then some ImageSubType.class_
  else none

def imageFormatOfString (s : String) : Option ImageFormat :=
  if s = "tif" then some ImageFormat.tif
  else if s = "png" then some ImageFormat.png
  else if s = "jpg" then some ImageFormat.jpg
  else if s = "jpeg" then some ImageFormat.jpeg
  else if s = "tiff" then some ImageFormat.tiff
  else if s = "ometiff" then some ImageFormat.ometiff
  else none

def arrayFormatOfString (s : String) : Option ArrayFormat :=
  if s = "npy" then some ArrayFormat.npy
  else if s = "npz" then some ArrayFormat.npz
  else none

/-- Validation against the FileParameter helper model (unused by the
schema root, embedded for completeness). -/
def parseFileParameter (path : List String) (v : JVal) : V FileParameter :=
  match v with
  | JVal.obj fs =>
      vseq (Except.ok FileParameter.mk)
        (reqStr (path ++ ["format"]) (lookupKey "format" fs))
  | _ => Except.error [⟨path, ErrKind.typeMismatch⟩]

/-- Validation against the ImageParameter helper model (unused by the
schema root, embedded for completeness). -/
def parseImageParameter (path : List String) (v : JVal) : V ImageParameter :=
  match v with
  | JVal.obj fs =>
      vseq (vseq (Except.ok ImageParameter.mk)
        (reqEnum imageSubTypeOfString imageSubTypeLiterals (path ++ ["sub-type"])
          (lookupKey "sub-type" fs)))
        (reqEnum imageFormatOfString imageFormatLiterals (path ++ ["format"])
          (lookupKey "format" fs))
  | _ => Except.error [⟨path, ErrKind.typeMismatch⟩]

/-- Validation against the ArrayParameter helper model (unused by the
schema root, embedded for completeness). -/
def parseArrayParameter (path : List String) (v : JVal) : V ArrayParameter :=
  match v with
  | JVal.obj fs =>
      vseq (Except.ok ArrayParameter.mk)
        (reqEnum arrayFormatOfString arrayFormatLiterals (path ++ ["format"])
          (lookupKey "format" fs))
  | _ => Except.error [⟨path, ErrKind.typeMismatch⟩]

/-- Validation of a document node against the Parameter model.  The
format and sub-type fields are unconstrained optional strings, whatever
the value of `type`. -/
def parseParameter (path : List String) (v : JVal) : V Parameter :=
  match v with
  | JVal.obj fs =>
      vseq (vseq (vseq (vseq (vseq (vseq (vseq (vseq (vseq (vseq (vseq (Except.ok Parameter.mk)
        (reqStr (path ++ ["id"]) (lookupKey "id" fs)))
        (reqEnum parameterTypeOfString parameterTypeLiterals (path ++ ["type"])
          (lookupKey "type" fs)))
        (optStr (path ++ ["name"]) (lookupKey "name" fs)))
        (optStr (path ++ ["description"]) (lookupKey "description" fs)))
        (optStr (path ++ ["value-key"]) (lookupKey "value-key" fs)))
        (optStr (path ++ ["command-line-flag"]) (lookupKey "command-line-flag" fs)))
        (optDefaultValue (path ++ ["default-value"]) (lookupKey "default-value" fs)))
        (optBool (path ++ ["optional"]) (lookupKey "optional" fs)))
        (optBool (path ++ ["set-by-server"]) (lookupKey "set-by-server" fs)))
        (optStr (path ++ ["format"]) (lookupKey "format" fs)))
        (optStr (path ++ ["sub-type"]) (lookupKey "sub-type" fs))
  | _ => Except.error [⟨path, ErrKind.typeMismatch⟩]

/-- Validation of a document node against the OutputParameter model. -/
def parseOutputParameter (path : List String) (v : JVal) : V OutputParameter :=
  match v with
  | JVal.obj fs =>
      vseq (vseq (vseq (vseq (vseq (vseq (vseq (vseq (vseq (Except.ok OutputParameter.mk)
        (reqStr (path ++ ["id"]) (lookupKey "id" fs)))
        (reqEnum outputParameterTypeOfString outputParameterTypeLiterals (path ++ ["type"])
          (lookupKey "type" fs)))
        (optStr (path ++ ["name"]) (lookupKey "name" fs)))
        (optStr (path ++ ["description"]) (lookupKey "description" fs)))
        (optStr (path ++ ["value-key"]) (lookupKey "value-key" fs)))
        (optStr (path ++ ["command-line-flag"]) (lookupKey "command-line-flag" fs)))
        (optDefaultValue (path ++ ["default-value"]) (lookupKey "default-value" fs)))
        (optBool (path ++ ["optional"]) (lookupKey "optional" fs)))
        (optBool (path ++ ["set-by-server"]) (lookupKey "set-by-server" fs))
  | _ => Except.error [⟨path, ErrKind.typeMismatch⟩]

/-- WorkflowSchema.citations: declared with default [] and min_length 1.
Pydantic does not validate the default, so an absent field yields []
unchecked; an explicitly empty list fails the min_length constraint
(reported as a uniqueness violation in the spec error taxonomy). -/
def parseCitationsField (path : List String) : Option JVal → V (List Citation)
  | none => Except.ok []
  | some (JVal.arr []) => Except.error [⟨path, ErrKind.uniquenessViolation⟩]
  | some (JVal.arr xs) => parseElems parseCitation path 0 xs
  | some _ => Except.error [⟨path, ErrKind.typeMismatch⟩]

/-- Validation of a whole document against the WorkflowSchema root model
(the `validate` contract of the schema).  Only this model configures
`populate_by_name`, so only its own fields accept either the alias or
the internal spelling. -/
def validateDocument (v : JVal) : V WorkflowSchema :=
  match v with
  | JVal.obj fs =>
      vseq (vseq (vseq (vseq (vseq (vseq (vseq (vseq (vseq (vseq (vseq (vseq (Except.ok WorkflowSchema.mk)
        (reqStr ["name"] (lookupKey "name" fs)))
        (reqStr ["description"] (lookupKey "description" fs)))
        (reqStr ["schema-version"] (lookupAliasOrName "schema-version" "schema_version" fs)))
        (defModelList parseAuthor ["authors"] (lookupKey "authors" fs)))
        (defModelList parseInstitution ["institutions"] (lookupKey "institutions" fs)))
        (parseCitationsField ["citations"] (lookupKey "citations" fs)))
        (optEnum ProblemClass.ofString? problemClassLiterals ["problem-class"]
          (lookupAliasOrName "problem-class" "problem_class" fs)))
        (reqModel parseContainerImage ["container-image"]
          (lookupAliasOrName "container-image" "container_image" fs)))
        (optModel parseConfiguration ["configuration"] (lookupKey "configuration" fs)))
        (reqModelList parseParameter ["inputs"] (lookupKey "inputs" fs)))
        (defModelList parseOutputParameter ["outputs"] (lookupKey "outputs" fs)))
        (reqStr ["command-line"] (lookupAliasOrName "command-line" "command_line" fs))
  | _ => Except.error [⟨[], ErrKind.typeMismatch⟩]

/- Serialization.  Modelled from the spec: the repository's source holds
only the model declarations, and serialization is pydantic model_dump
with aliases; the spec requires alias-canonical spellings on output and
every field emitted (absent optionals as null, list defaults as lists). -/

/-- Dump helper for optional fields: none becomes null. -/
def jnull {α : Type} (f : α → JVal) : Option α → JVal
  | none => JVal.null
  | some a => f a

def jstr : Option String → JVal := jnull JVal.str

def jrat : Option Rat → JVal := jnull JVal.num

def jbool : Option Bool → JVal := jnull JVal.bool

def jstrList : Option (List String) → JVal :=
  jnull fun xs => JVal.arr (xs.map JVal.str)

def jdefaultValue : Option DefaultValue → JVal :=
  jnull fun d =>
    match d with
    | DefaultValue.s s => JVal.str s
    | DefaultValue.num q => JVal.num q
    | DefaultValue.b b => JVal.bool b

def jcudaCC : Option CudaCC → JVal :=
  jnull fun c =>
    match c with
    | CudaCC.single s => JVal.str s
    | CudaCC.multi xs => JVal.arr (xs.map JVal.str)

def jproblemClass : Option ProblemClass → JVal :=
  jnull fun p => JVal.str (ProblemClass.toStr p)

/-- Modelled from the spec: serialization of an Author record. -/
def dumpAuthor (a : Author) : JVal :=
  JVal.obj
    [("name", JVal.str a.name),
     ("email", jstr a.email),
     ("affiliations", jstrList a.affiliations)]

/-- Modelled from the spec: serialization of an Institution record. -/
def dumpInstitution (i : Institution) : JVal :=
  JVal.obj
    [("id", JVal.str i.id),
     ("name", jstr i.name)]

/-- Modelled from the spec: serialization of a Citation record. -/
def dumpCitation (c : Citation) : JVal :=
  JVal.obj
    [("name", JVal.str c.name),
     ("doi", jstr c.doi),
     ("license", JVal.str c.license),
     ("description", jstr c.description)]

/-- Modelled from the spec: serialization of a ContainerImage record. -/
def dumpContainerImage (c : ContainerImage) : JVal :=
  JVal.obj
    [("image", JVal.str c.image),
     ("type", JVal.str (ContainerType.toStr c.type)),
     ("platforms", jstrList c.platforms)]

/-- Modelled from the spec: serialization of a CudaRequirements record. -/
def dumpCudaRequirements (c : CudaRequirements) : JVal :=
  JVal.obj
    [("device-memory-min", jrat c.device_memory_min),
     ("cuda-compute-capability", jcudaCC c.cuda_compute_capability)]

/-- Modelled from the spec: serialization of a Resources record. -/
def dumpResources (r : Resources) : JVal :=
  JVal.obj
    [("networking", jbool r.networking),
     ("ram-min", jrat r.ram_min),
     ("cores-min", jrat r.cores_min),
     ("gpu", jbool r.gpu),
     ("cuda-requirements", jnull dumpCudaRequirements r.cuda_requirements),
     ("cpuAVX", jbool r.cpuAVX),
     ("cpuAVX2", jbool r.cpuAVX2)]

/-- Modelled from the spec: serialization of a Configuration record. -/
def dumpConfiguration (c : Configuration) : JVal :=
  JVal.obj
    [("input_folder", jstr c.input_folder),
     ("output_folder", jstr c.output_folder),
     ("resources", jnull dumpResources c.resources)]

/-- Modelled from the spec: serialization of a Parameter record. -/
def dumpParameter (p : Parameter) : JVal :=
  JVal.obj
    [("id", JVal.str p.id),
     ("type", JVal.str (parameterTypeToStr p.type)),
     ("name", jstr p.name),
     ("description", jstr p.description),
     ("value-key", jstr p.value_key),
     ("command-line-flag", jstr p.command_line_flag),
     ("default-value", jdefaultValue p.default_value),
     ("optional", jbool p.optional),
     ("set-by-server", jbool p.set_by_server),
     ("format", jstr p.format),
     ("sub-type", jstr p.sub_type)]

/-- Modelled from the spec: serialization of an OutputParameter record. -/
def dumpOutputParameter (p : OutputParameter) : JVal :=
  JVal.obj
    [("id", JVal.str p.id),
     ("type", JVal.str (outputParameterTypeToStr p.type)),
     ("name", jstr p.name),
     ("description", jstr p.description),
     ("value-key", jstr p.value_key),
     ("command-line-flag", jstr p.command_line_flag),
     ("default-value", jdefaultValue p.default_value),
     ("optional", jbool p.optional),
     ("set-by-server", jbool p.set_by_server)]

/-- Modelled from the spec: serialization of a validated WorkflowSchema
record back to a document, with alias spellings canonical. -/
def dumpWorkflowSchema (m : WorkflowSchema) : JVal :=
  JVal.obj
    [("name", JVal.str m.name),
     ("description", JVal.str m.description),
     ("schema-version", JVal.str m.schema_version),
     ("authors", JVal.arr (m.authors.map dumpAuthor)),
     ("institutions", JVal.arr (m.institutions.map dumpInstitution)),
     ("citations", JVal.arr (m.citations.map dumpCitation)),
     ("problem-class", jproblemClass m.problem_class),
     ("container-image", dumpContainerImage m.container_image),
     ("configuration", jnull dumpConfiguration m.configuration),
     ("inputs", JVal.arr (m.inputs.map dumpParameter)),
     ("outputs", JVal.arr (m.outputs.map dumpOutputParameter)),
     ("command-line", JVal.str m.command_line)]

/- Round-trip lemmas: parsing a dumped record recovers the record. -/

@[simp]
theorem vseq_ok_ok {α β : Type} (f : α → β) (a : α) :
    vseq (Except.ok f) (Except.ok a) = Except.ok (f a) := rfl

@[simp]
theorem vseq_err_err {α β : Type} (e1 e2 : List VError) :
    vseq (α := α) (β := β) (Except.error e1) (Except.error e2) = Except.error (e1 ++ e2) := rfl

@[simp]
theorem vseq_err_ok {α β : Type} (e1 : List VError) (a : α) :
    vseq (α := α) (β := β) (Except.error e1) (Except.ok a) = Except.error e1 := rfl

@[simp]
theorem vseq_ok_err {α β : Type} (f : α → β) (e2 : List VError) :
    vseq (Except.ok f) (Except.error e2) = Except.error e2 := rfl

@[simp]
theorem reqStr_str (path : List String) (s : String) :
    reqStr path (some (JVal.str s)) = Except.ok s := rfl

@[simp]
theorem optStr_jstr (path : List String) (o : Option String) :
    optStr path (some (jstr o)) = Except.ok o := by
  cases o <;> rfl

@[simp]
theorem optRat_jrat (path : List String) (o : Option Rat) :
    optRat path (some (jrat o)) = Except.ok o := by
  cases o <;> rfl

@[simp]
theorem optBool_jbool (path : List String) (o : Option Bool) :
    optBool path (some (jbool o)) = Except.ok o := by
  cases o <;> rfl

theorem strElems_map (path : List String) (xs : List String) :
    ∀ i : Nat, strElems path i (List.map JVal.str xs) = Except.ok xs := by
  induction xs with
  | nil => intro i; rfl
  | cons x rest ih => intro i; simp [strElems, strElem, ih, vseq_ok_ok]

@[simp]
theorem optStrList_jstrList (path : List String) (o : Option (List String)) :
    optStrList path (some (jstrList o)) = Except.ok o := by
  cases o with
  | none => rfl
  | some xs => simp [optStrList, jstrList, jnull, strElems_map, Except.map]

@[simp]
theorem optDefaultValue_jdefaultValue (path : List String) (o : Option DefaultValue) :
    optDefaultValue path (some (jdefaultValue o)) = Except.ok o := by
  cases o with
  | none => rfl
  | some d => cases d <;> rfl

@[simp]
theorem optCudaCC_jcudaCC (path : List String) (o : Option CudaCC) :
    optCudaCC path (some (jcudaCC o)) = Except.ok o := by
  cases o with
  | none => rfl
  | some c =>
      cases c with
      | single s => rfl
      | multi xs => simp [optCudaCC, jcudaCC, jnull, strElems_map, Except.map]

@[simp]
theorem optEnum_jproblemClass (path : List String) (o : Option ProblemClass) :
    optEnum ProblemClass.ofString? problemClassLiterals path (some (jproblemClass o)) =
      Except.ok o := by
  cases o with
  | none => rfl
  | some p => cases p <;> rfl

@[simp]
theorem reqEnum_containerType (path : List String) (t : ContainerType) :
    reqEnum ContainerType.ofString? containerTypeLiterals path
      (some (JVal.str (ContainerType.toStr t))) = Except.ok t := by
  cases t <;> rfl

@[simp]
theorem reqEnum_parameterType (path : List String) (t : ParameterType) :
    reqEnum parameterTypeOfString parameterTypeLiterals path
      (some (JVal.str (parameterTypeToStr t))) = Except.ok t := by
  cases t <;> rfl

@[simp]
theorem reqEnum_outputParameterType (path : List String) (t : OutputParameterType) :
    reqEnum outputParameterTypeOfString outputParameterTypeLiterals path
      (some (JVal.str (outputParameterTypeToStr t))) = Except.ok t := by
  cases t <;> rfl

@[simp]
theorem parseAuthor_dump (path : List String) (a : Author) :
    parseAuthor path (dumpAuthor a) = Except.ok a := by
  simp [parseAuthor, dumpAuthor, lookupKey]

@[simp]
theorem parseInstitution_dump (path : List String) (i : Institution) :
    parseInstitution path (dumpInstitution i) = Except.ok i := by
  simp [parseInstitution, dumpInstitution, lookupKey]

@[simp]
theorem parseCitation_dump (path : List String) (c : Citation) :
    parseCitation path (dumpCitation c) = Except.ok c := by
  simp [parseCitation, dumpCitation, lookupKey]

@[simp]
theorem parseContainerImage_dump (path : List String) (c : ContainerImage) :
    parseContainerImage path (dumpContainerImage c) = Except.ok c := by
  simp [parseContainerImage, dumpContainerImage, lookupKey]

@[simp]
theorem parseCudaRequirements_dump (path : List String) (c : CudaRequirements) :
    parseCudaRequirements path (dumpCudaRequirements c) = Except.ok c := by
  simp [parseCudaRequirements, dumpCudaRequirements, lookupKey]

@[simp]
theorem optModel_dumpCudaRequirements (path : List String) (o : Option CudaRequirements) :
    optModel parseCudaRequirements path (some (jnull dumpCudaRequirements o)) = Except.ok o := by
  cases o with
  | none => rfl
  | some x =>
      show (parseCudaRequirements path (dumpCudaRequirements x)).map some = Except.ok (some x)
      rw [parseCudaRequirements_dump]
      rfl

@[simp]
theorem parseResources_dump (path : List String) (r : Resources) :
    parseResources path (dumpResources r) = Except.ok r := by
  simp [parseResources, dumpResources, lookupKey]

@[simp]
theorem optModel_dumpResources (path : List String) (o : Option Resources) :
    optModel parseResources path (some (jnull dumpResources o)) = Except.ok o := by
  cases o with
  | none => rfl
  | some x =>
      show (parseResources path (dumpResources x)).map some = Except.ok (some x)
      rw [parseResources_dump]
      rfl

@[simp]
theorem parseConfiguration_dump (path : List String) (c : Configuration) :
    parseConfiguration path (dumpConfiguration c) = Except.ok c := by
  simp [parseConfiguration, dumpConfiguration, lookupKey]

@[simp]
theorem optModel_dumpConfiguration (path : List String) (o : Option Configuration) :
    optModel parseConfiguration path (some (jnull dumpConfiguration o)) = Except.ok o := by
  cases o with
  | none => rfl
  | some x =>
      show (parseConfiguration path (dumpConfiguration x)).map some = Except.ok (some x)
      rw [parseConfiguration_dump]
      rfl

@[simp]
theorem parseParameter_dump (path : List String) (p : Parameter) :
    parseParameter path (dumpParameter p) = Except.ok p := by
  simp [parseParameter, dumpParameter, lookupKey]

@[simp]
theorem parseOutputParameter_dump (path : List String) (p : OutputParameter) :
    parseOutputParameter path (dumpOutputParameter p) = Except.ok p := by
  simp [parseOutputParameter, dumpOutputParameter, lookupKey]

theorem parseElems_dump {α : Type} {p : List String → JVal → V α} {d : α → JVal}
    (h : ∀ (path : List String) (x : α), p path (d x) = Except.ok x) (path : List String) :
    ∀ (xs : List α) (i : Nat), parseElems p path i (List.map d xs) = Except.ok xs := by
  intro xs
  induction xs with
  | nil => intro i; rfl
  | cons x rest ih => intro i; simp [parseElems, h, ih]

@[simp]
theorem parseElems_dumpAuthor (path : List String) (xs : List Author) (i : Nat) :
    parseElems parseAuthor path i (List.map dumpAuthor xs) = Except.ok xs :=
  parseElems_dump parseAuthor_dump path xs i

@[simp]
theorem parseElems_dumpInstitution (path : List String) (xs : List Institution) (i : Nat) :
    parseElems parseInstitution path i (List.map dumpInstitution xs) = Except.ok xs :=
  parseElems_dump parseInstitution_dump path xs i

@[simp]
theorem parseElems_dumpCitation (path : List String) (xs : List Citation) (i : Nat) :
    parseElems parseCitation path i (List.map dumpCitation xs) = Except.ok xs :=
  parseElems_dump parseCitation_dump path xs i

@[simp]
theorem parseElems_dumpParameter (path : List String) (xs : List Parameter) (i : Nat) :
    parseElems parseParameter path i (List.map dumpParameter xs) = Except.ok xs :=
  parseElems_dump parseParameter_dump path xs i

@[simp]
theorem parseElems_dumpOutputParameter (path : List String) (xs : List OutputParameter) (i : Nat) :
    parseElems parseOutputParameter path i (List.map dumpOutputParameter xs) = Except.ok xs :=
  parseElems_dump parseOutputParameter_dump path xs i

/-- Round-trip at the record level: any record whose citations list is
non-empty re-validates from its own serialization.  (The citations
default bypassing min_length makes the non-emptiness hypothesis
necessary: a record with empty citations serializes to an explicitly
empty list, which validation rejects.) -/
theorem validateDocument_dump (m : WorkflowSchema) (h : m.citations ≠ []) :
    validateDocument (dumpWorkflowSchema m) = Except.ok m := by
  obtain ⟨nm, ds, sv, au, inst, cit, pc, ci, cfg, inp, out, cl⟩ := m
  cases cit with
  | nil => exact absurd rfl h
  | cons c cs =>
      simp [validateDocument, dumpWorkflowSchema, lookupKey, lookupAliasOrName, Option.orElse,
        defModelList, reqModelList, reqModel, parseCitationsField, parseElems]

/- Concrete documents used to settle the claims. -/

/-- Minimal valid document family: only required fields set, with one
citation and one input parameter of type string. -/
def minimalDoc (nm ds sv cn li img pid cmd : String) : JVal :=
  JVal.obj
    [("name", JVal.str nm),
     ("description", JVal.str ds),
     ("schema-version", JVal.str sv),
     ("citations", JVal.arr [JVal.obj [("name", JVal.str cn), ("license", JVal.str li)]]),
     ("container-image", JVal.obj [("image", JVal.str img), ("type", JVal.str "oci")]),
     ("inputs", JVal.arr [JVal.obj [("id", JVal.str pid), ("type", JVal.str "string")]]),
     ("command-line", JVal.str cmd)]

/-- The record a minimal document validates to: list defaults are empty
lists and every defaultable optional field is none. -/
def minimalRecord (nm ds sv cn li img pid cmd : String) : WorkflowSchema :=
  ⟨nm, ds, sv, [], [], [⟨cn, none, li, none⟩], none,
   ⟨img, ContainerType.oci, none⟩, none,
   [⟨pid, ParameterType.string, none, none, none, none, none, none, none, none, none⟩],
   [], cmd⟩

/-- Key-value rows of a fixed minimal valid document. -/
def minimalFields : List (String × JVal) :=
  [("name", JVal.str "w"),
   ("description", JVal.str "d"),
   ("schema-version", JVal.str "1.0.0"),
   ("citations", JVal.arr [JVal.obj [("name", JVal.str "tool"), ("license", JVal.str "MIT")]]),
   ("container-image", JVal.obj [("image", JVal.str "img"), ("type", JVal.str "oci")]),
   ("inputs", JVal.arr [JVal.obj [("id", JVal.str "p"), ("type", JVal.str "string")]]),
   ("command-line", JVal.str "run")]

/-- A fixed minimal valid document. -/
def docMinimal : JVal := JVal.obj minimalFields

/-- The record docMinimal validates to. -/
def mMinimal : WorkflowSchema := minimalRecord "w" "d" "1.0.0" "tool" "MIT" "img" "p" "run"

/-- The fixed minimal document with one top-level field removed. -/
def docWithout (k : String) : JVal :=
  JVal.obj (minimalFields.filter fun kv => kv.1 ≠ k)

/-- The fixed minimal document with one top-level field replaced. -/
def replaceField (k : String) (v : JVal) : JVal :=
  JVal.obj ((k, v) :: minimalFields.filter fun kv => kv.1 ≠ k)

/-- The record obtained when citations is omitted: pydantic takes the
default [] without checking min_length. -/
def mNoCitations : WorkflowSchema :=
  ⟨"w", "d", "1.0.0", [], [], [], none, ⟨"img", ContainerType.oci, none⟩, none,
   [⟨"p", ParameterType.string, none, none, none, none, none, none, none, none, none⟩],
   [], "run"⟩

/-- Document whose citations list is present but empty. -/
def docEmptyCitations : JVal := replaceField "citations" (JVal.arr [])

/-- Parameter record shared by the input-parameter variants below. -/
def paramRecord (pid : String) (t : ParameterType) (fmt st : Option String) : Parameter :=
  ⟨pid, t, none, none, none, none, none, none, none, fmt, st⟩

/-- Minimal record with a replaced inputs list. -/
def mWithInputs (ps : List Parameter) : WorkflowSchema :=
  ⟨"w", "d", "1.0.0", [], [], [⟨"tool", none, "MIT", none⟩], none,
   ⟨"img", ContainerType.oci, none⟩, none, ps, [], "run"⟩

/-- Document with one image-typed input parameter and no sub-type. -/
def docImageNoSub : JVal :=
  replaceField "inputs"
    (JVal.arr [JVal.obj [("id", JVal.str "p"), ("type", JVal.str "image")]])

/-- Document with one image-typed input parameter carrying
sub-type grayscale and format tif. -/
def docImageWithSub : JVal :=
  replaceField "inputs"
    (JVal.arr [JVal.obj [("id", JVal.str "p"), ("type", JVal.str "image"),
      ("sub-type", JVal.str "grayscale"), ("format", JVal.str "tif")]])

/-- Document with one image-typed input parameter whose format is bmp,
outside the ImageParameter literal set. -/
def docImageBadFormat : JVal :=
  replaceField "inputs"
    (JVal.arr [JVal.obj [("id", JVal.str "p"), ("type", JVal.str "image"),
      ("sub-type", JVal.str "grayscale"), ("format", JVal.str "bmp")]])

/-- Document with one file-typed input parameter with format csv. -/
def docFileCsv : JVal :=
  replaceField "inputs"
    (JVal.arr [JVal.obj [("id", JVal.str "p"), ("type", JVal.str "file"),
      ("format", JVal.str "csv")]])

/-- Document whose inputs list holds two parameters with the same id. -/
def docDupIds : JVal :=
  replaceField "inputs"
    (JVal.arr [JVal.obj [("id", JVal.str "threshold"), ("type", JVal.str "integer")],
      JVal.obj [("id", JVal.str "threshold"), ("type", JVal.str "integer")]])

/-- Document with an author affiliation that matches no institution id. -/
def docBadAffil : JVal :=
  JVal.obj
    (("authors", JVal.arr [JVal.obj [("name", JVal.str "A"),
        ("affiliations", JVal.arr [JVal.str "inst-x"])]]) ::
     ("institutions", JVal.arr [JVal.obj [("id", JVal.str "inst-y")]]) ::
     minimalFields)

/-- Record docBadAffil validates to. -/
def mBadAffil : WorkflowSchema :=
  ⟨"w", "d", "1.0.0", [⟨"A", none, some ["inst-x"]⟩], [⟨"inst-y", none⟩],
   [⟨"tool", none, "MIT", none⟩], none, ⟨"img", ContainerType.oci, none⟩, none,
   [⟨"p", ParameterType.string, none, none, none, none, none, none, none, none, none⟩],
   [], "run"⟩

/-- Input parameter carrying one extra key (used to compare the alias
spelling value-key with the internal spelling value_key). -/
def docParamExtraKey (key vk : String) : JVal :=
  replaceField "inputs"
    (JVal.arr [JVal.obj [("id", JVal.str "p"), ("type", JVal.str "string"),
      (key, JVal.str vk)]])

/-- Top-level document written with the hyphenated alias spellings. -/
def docTopAlias (sv img cmd : String) : JVal :=
  JVal.obj
    [("name", JVal.str "w"),
     ("description", JVal.str "d"),
     ("schema-version", JVal.str sv),
     ("citations", JVal.arr [JVal.obj [("name", JVal.str "tool"), ("license", JVal.str "MIT")]]),
     ("problem-class", JVal.str "object-counting"),
     ("container-image", JVal.obj [("image", JVal.str img), ("type", JVal.str "oci")]),
     ("inputs", JVal.arr []),
     ("command-line", JVal.str cmd)]

/-- The same document written with the internal (underscore) spellings
for every aliased top-level field. -/
def docTopInternal (sv img cmd : String) : JVal :=
  JVal.obj
    [("name", JVal.str "w"),
     ("description", JVal.str "d"),
     ("schema_version", JVal.str sv),
     ("citations", JVal.arr [JVal.obj [("name", JVal.str "tool"), ("license", JVal.str "MIT")]]),
     ("problem_class", JVal.str "object-counting"),
     ("container_image", JVal.obj [("image", JVal.str img), ("type", JVal.str "oci")]),
     ("inputs", JVal.arr []),
     ("command_line", JVal.str cmd)]

/-- Minimal document with a bad container-image type value. -/
def docBadContainerType (v : String) : JVal :=
  replaceField "container-image"
    (JVal.obj [("image", JVal.str "img"), ("type", JVal.str v)])

/-- Minimal document with a bad input-parameter type value. -/
def docBadParameterType (v : String) : JVal :=
  replaceField "inputs"
    (JVal.arr [JVal.obj [("id", JVal.str "p"), ("type", JVal.str v)]])

/-- Minimal document with a bad output-parameter type value. -/
def docBadOutputType (v : String) : JVal :=
  JVal.obj
    (("outputs", JVal.arr [JVal.obj [("id", JVal.str "o"), ("type", JVal.str v)]]) ::
     minimalFields)

/-- Minimal document with a bad problem-class value. -/
def docBadProblemClass (v : String) : JVal :=
  JVal.obj (("problem-class", JVal.str v) :: minimalFields)

/-- Minimal document with one input parameter of the given type string
carrying arbitrary format and sub-type values. -/
def docTypedParam (t fmt st : String) : JVal :=
  replaceField "inputs"
    (JVal.arr [JVal.obj [("id", JVal.str "p"), ("type", JVal.str t),
      ("format", JVal.str fmt), ("sub-type", JVal.str st)]])

/- Helper lemmas for the enum-error claims. -/

theorem ctOfString_none (s : String) (h : s ∉ containerTypeLiterals) :
    ContainerType.ofString? s = none := by
  simp only [containerTypeLiterals, List.mem_cons, List.not_mem_nil, or_false, not_or] at h
  simp [ContainerType.ofString?, h.1, h.2]

theorem ptOfString_none (s : String) (h : s ∉ parameterTypeLiterals) :
    parameterTypeOfString s = none := by
  simp only [parameterTypeLiterals, List.mem_cons, List.not_mem_nil, or_false, not_or] at h
  obtain ⟨h1, h2, h3, h4, h5, h6, h7, h8, h9⟩ := h
  simp [parameterTypeOfString, h1, h2, h3, h4, h5, h6, h7, h8, h9]

theorem otOfString_none (s : String) (h : s ∉ outputParameterTypeLiterals) :
    outputParameterTypeOfString s = none := by
  simp only [outputParameterTypeLiterals, List.mem_cons, List.not_mem_nil, or_false, not_or] at h
  simp [outputParameterTypeOfString, h.1, h.2]

theorem pcOfString_none (s : String) (h : s ∉ problemClassLiterals) :
    ProblemClass.ofString? s = none := by
  simp only [problemClassLiterals, List.mem_cons, List.not_mem_nil, or_false, not_or] at h
  obtain ⟨h1, h2, h3, h4, h5, h6, h7, h8, h9⟩ := h
  simp [ProblemClass.ofString?, h1, h2, h3, h4, h5, h6, h7, h8, h9]

/- Claim theorems. -/

/-- C1 counterexample: on the concrete minimal document, validation
succeeds but the record does not carry the documented defaults: the
input parameter's name is none rather than some "p" (its id), and
configuration is an absent none, so the claimed defaulting is false. -/
theorem c1_defaults_counterexample :
    validateDocument docMinimal = Except.ok mMinimal ∧
    List.map Parameter.name mMinimal.inputs = [none] ∧
    List.map Parameter.name mMinimal.inputs ≠ [some "p"] ∧
    mMinimal.configuration = none :=
  ⟨rfl, rfl, by decide, rfl⟩

/-- C1 (amended): for every minimal document (only required fields set),
validation succeeds, and every defaultable optional field of the
normalized record is none — the documented defaults are not
materialized by validation. -/
theorem c1_minimal_defaults_not_applied (nm ds sv cn li img pid cmd : String) :
    validateDocument (minimalDoc nm ds sv cn li img pid cmd) =
      Except.ok (minimalRecord nm ds sv cn li img pid cmd) := rfl

/-- C1 witness: the amended statement evaluated at a concrete minimal
document. -/
theorem c1_minimal_defaults_not_applied_witness :
    validateDocument (minimalDoc "w" "d" "1.0.0" "tool" "MIT" "img" "p" "run") =
      Except.ok (minimalRecord "w" "d" "1.0.0" "tool" "MIT" "img" "p" "run") :=
  c1_minimal_defaults_not_applied "w" "d" "1.0.0" "tool" "MIT" "img" "p" "run"

/-- C2: removing any one of the six truly required fields yields a
missing-required-field error naming that field, and an explicitly empty
citations list is rejected; but a document that omits citations
entirely is accepted with citations = [], because pydantic takes the
default [] without checking min_length — the code contradicts its own
"At least one required" declaration. -/
theorem c2_required_fields :
    validateDocument (docWithout "name") =
      Except.error [⟨["name"], ErrKind.missingRequiredField⟩] ∧
    validateDocument (docWithout "description") =
      Except.error [⟨["description"], ErrKind.missingRequiredField⟩] ∧
    validateDocument (docWithout "schema-version") =
      Except.error [⟨["schema-version"], ErrKind.missingRequiredField⟩] ∧
    validateDocument (docWithout "container-image") =
      Except.error [⟨["container-image"], ErrKind.missingRequiredField⟩] ∧
    validateDocument (docWithout "inputs") =
      Except.error [⟨["inputs"], ErrKind.missingRequiredField⟩] ∧
    validateDocument (docWithout "command-line") =
      Except.error [⟨["command-line"], ErrKind.missingRequiredField⟩] ∧
    validateDocument docEmptyCitations =
      Except.error [⟨["citations"], ErrKind.uniquenessViolation⟩] ∧
    validateDocument (docWithout "citations") = Except.ok mNoCitations :=
  ⟨rfl, rfl, rfl, rfl, rfl, rfl, rfl, rfl⟩

/-- C3: a Parameter with type image and no sub-type passes validation
(no cross-field constraint exists in the code; ImageParameter is never
wired in), and the same document with sub-type grayscale and format tif
also passes. -/
theorem c3_image_subtype_unchecked :
    validateDocument docImageNoSub =
      Except.ok (mWithInputs [paramRecord "p" ParameterType.image none none]) ∧
    validateDocument docImageWithSub =
      Except.ok (mWithInputs [paramRecord "p" ParameterType.image (some "tif") (some "grayscale")]) :=
  ⟨rfl, rfl⟩

/-- C4: a file-typed parameter with format csv passes, and an
image-typed parameter with format bmp also passes with the value
preserved — Parameter.format is an unconstrained optional string, so
the claimed InvalidEnumValue rejection does not happen. -/
theorem c4_format_unchecked :
    validateDocument docFileCsv =
      Except.ok (mWithInputs [paramRecord "p" ParameterType.file (some "csv") none]) ∧
    validateDocument docImageBadFormat =
      Except.ok (mWithInputs [paramRecord "p" ParameterType.image (some "bmp") (some "grayscale")]) :=
  ⟨rfl, rfl⟩

/-- C5: an author affiliation that matches no institution id is
accepted: the code never cross-checks affiliations against
institutions, although the Author.affiliations field documentation
states the constraint. -/
theorem c5_affiliations_unchecked :
    validateDocument docBadAffil = Except.ok mBadAffil ∧
    List.map Author.affiliations mBadAffil.authors = [some ["inst-x"]] ∧
    List.map Institution.id mBadAffil.institutions = ["inst-y"] :=
  ⟨rfl, rfl, rfl⟩

/-- C6: two input parameters with the same id validate successfully:
no uniqueness validator exists in the code, although Parameter.id is
documented as a unique identifier. -/
theorem c6_duplicate_ids_accepted :
    validateDocument docDupIds =
      Except.ok (mWithInputs [paramRecord "threshold" ParameterType.integer none none,
        paramRecord "threshold" ParameterType.integer none none]) ∧
    List.map Parameter.id
      (mWithInputs [paramRecord "threshold" ParameterType.integer none none,
        paramRecord "threshold" ParameterType.integer none none]).inputs =
      ["threshold", "threshold"] :=
  ⟨rfl, rfl⟩

/-- C7 counterexample: the document omitting citations validates to a
record with empty citations, but serializing that record yields a
document that fails validation (explicit empty list hits min_length),
so validate-then-serialize is not semantically equivalent to the input
for this valid document. -/
theorem c7_roundtrip_counterexample :
    validateDocument (docWithout "citations") = Except.ok mNoCitations ∧
    validateDocument (dumpWorkflowSchema mNoCitations) =
      Except.error [⟨["citations"], ErrKind.uniquenessViolation⟩] :=
  ⟨rfl, rfl⟩

/-- C7 (amended): for every document that validates to a record with a
non-empty citations list, serializing the record yields a document that
re-validates to exactly the same record — round-trip fidelity with only
defaults made explicit. -/
theorem c7_roundtrip (doc : JVal) (m : WorkflowSchema)
    (_hv : validateDocument doc = Except.ok m) (hc : m.citations ≠ []) :
    validateDocument (dumpWorkflowSchema m) = Except.ok m :=
  validateDocument_dump m hc

/-- C7 witness: the round trip evaluated on the concrete minimal
document and its record. -/
theorem c7_roundtrip_witness :
    validateDocument (dumpWorkflowSchema mMinimal) = Except.ok mMinimal :=
  c7_roundtrip docMinimal mMinimal rfl (by decide)

/-- C8 counterexample: spelling a nested aliased field with its internal
name is not interchangeable with the alias: value-key K sets the
field, while value_key K is ignored as an unknown key and leaves it
none, so the two spellings yield different records. -/
theorem c8_alias_counterexample :
    validateDocument (docParamExtraKey "value-key" "K") =
      Except.ok (mWithInputs
        [⟨"p", ParameterType.string, none, none, some "K", none, none, none, none, none, none⟩]) ∧
    validateDocument (docParamExtraKey "value_key" "K") =
      Except.ok (mWithInputs [paramRecord "p" ParameterType.string none none]) ∧
    mWithInputs
        [⟨"p", ParameterType.string, none, none, some "K", none, none, none, none, none, none⟩] ≠
      mWithInputs [paramRecord "p" ParameterType.string none none] :=
  ⟨rfl, rfl, by decide⟩

/-- C8 (amended): both spellings are interchangeable for WorkflowSchema's
own aliased fields (populate_by_name is set on WorkflowSchema alone),
while for aliased fields of nested models only the alias spelling is
honoured and the internal spelling is ignored as an unknown key. -/
theorem c8_alias_tolerance (sv img cmd vk : String) :
    validateDocument (docTopInternal sv img cmd) = validateDocument (docTopAlias sv img cmd) ∧
    validateDocument (docParamExtraKey "value-key" vk) =
      Except.ok (mWithInputs
        [⟨"p", ParameterType.string, none, none, some vk, none, none, none, none, none, none⟩]) ∧
    validateDocument (docParamExtraKey "value_key" vk) =
      Except.ok (mWithInputs [paramRecord "p" ParameterType.string none none]) :=
  ⟨rfl, rfl, rfl⟩

/-- C8 witness: the amended statement at concrete field values. -/
theorem c8_alias_tolerance_witness :
    validateDocument (docTopInternal "1.0.0" "img" "run") =
      validateDocument (docTopAlias "1.0.0" "img" "run") ∧
    validateDocument (docParamExtraKey "value-key" "K2") =
      Except.ok (mWithInputs
        [⟨"p", ParameterType.string, none, none, some "K2", none, none, none, none, none, none⟩]) ∧
    validateDocument (docParamExtraKey "value_key" "K2") =
      Except.ok (mWithInputs [paramRecord "p" ParameterType.string none none]) :=
  c8_alias_tolerance "1.0.0" "img" "run" "K2"

/-- C9: for each enum-constrained field — ContainerImage.type,
Parameter.type, OutputParameter.type, problem-class — any value outside
the enumerated set makes validation fail with an invalid-enum-value
error naming the field path, the offending value, and the allowed set. -/
theorem c9_invalid_enum_value (v : String) :
    (v ∉ containerTypeLiterals →
      validateDocument (docBadContainerType v) =
        Except.error [⟨["container-image", "type"],
          ErrKind.invalidEnumValue v containerTypeLiterals⟩]) ∧
    (v ∉ parameterTypeLiterals →
      validateDocument (docBadParameterType v) =
        Except.error [⟨["inputs", "0", "type"],
          ErrKind.invalidEnumValue v parameterTypeLiterals⟩]) ∧
    (v ∉ outputParameterTypeLiterals →
      validateDocument (docBadOutputType v) =
        Except.error [⟨["outputs", "0", "type"],
          ErrKind.invalidEnumValue v outputParameterTypeLiterals⟩]) ∧
    (v ∉ problemClassLiterals →
      validateDocument (docBadProblemClass v) =
        Except.error [⟨["problem-class"],
          ErrKind.invalidEnumValue v problemClassLiterals⟩]) := by
  have hoci : ContainerType.ofString? "oci" = some ContainerType.oci := rfl
  have hstr : parameterTypeOfString "string" = some ParameterType.string := rfl
  refine ⟨fun h => ?_, fun h => ?_, fun h => ?_, fun h => ?_⟩
  · have hv := ctOfString_none v h
    simp [validateDocument, docBadContainerType, replaceField, minimalFields, lookupKey,
      lookupAliasOrName, Option.orElse, parseContainerImage, reqEnum, hv, hstr,
      reqStr, optStr, optStrList, optEnum, defModelList, reqModelList, parseElems,
      parseCitationsField, parseCitation, parseParameter, optModel, reqModel,
      optBool, optDefaultValue, List.filter]
    try rfl
  · have hv := ptOfString_none v h
    simp [validateDocument, docBadParameterType, replaceField, minimalFields, lookupKey,
      lookupAliasOrName, Option.orElse, parseContainerImage, reqEnum, hv, hoci,
      reqStr, optStr, optStrList, optEnum, defModelList, reqModelList, parseElems,
      parseCitationsField, parseCitation, parseParameter, optModel, reqModel,
      optBool, optDefaultValue, List.filter]
    try rfl
  · have hv := otOfString_none v h
    simp [validateDocument, docBadOutputType, minimalFields, lookupKey,
      lookupAliasOrName, Option.orElse, parseContainerImage, reqEnum, hv, hoci, hstr,
      reqStr, optStr, optStrList, optEnum, defModelList, reqModelList, parseElems,
      parseCitationsField, parseCitation, parseParameter, parseOutputParameter,
      optModel, reqModel, optBool, optDefaultValue]
    try rfl
  · have hv := pcOfString_none v h
    simp [validateDocument, docBadProblemClass, minimalFields, lookupKey,
      lookupAliasOrName, Option.orElse, parseContainerImage, reqEnum, hv, hoci, hstr,
      reqStr, optStr, optStrList, optEnum, defModelList, reqModelList, parseElems,
      parseCitationsField, parseCitation, parseParameter, optModel, reqModel,
      optBool, optDefaultValue]
    try rfl

/-- C9 witness: the four enum errors evaluated at the concrete value
bmp, which belongs to none of the allowed sets. -/
theorem c9_invalid_enum_value_witness :
    validateDocument (docBadContainerType "bmp") =
      Except.error [⟨["container-image", "type"],
        ErrKind.invalidEnumValue "bmp" containerTypeLiterals⟩] ∧
    validateDocument (docBadParameterType "bmp") =
      Except.error [⟨["inputs", "0", "type"],
        ErrKind.invalidEnumValue "bmp" parameterTypeLiterals⟩] ∧
    validateDocument (docBadOutputType "bmp") =
      Except.error [⟨["outputs", "0", "type"],
        ErrKind.invalidEnumValue "bmp" outputParameterTypeLiterals⟩] ∧
    validateDocument (docBadProblemClass "bmp") =
      Except.error [⟨["problem-class"],
        ErrKind.invalidEnumValue "bmp" problemClassLiterals⟩] :=
  ⟨(c9_invalid_enum_value "bmp").1 (by decide),
   (c9_invalid_enum_value "bmp").2.1 (by decide),
   (c9_invalid_enum_value "bmp").2.2.1 (by decide),
   (c9_invalid_enum_value "bmp").2.2.2 (by decide)⟩

/-- C10: for a Parameter whose type is none of file, image, array,
arbitrary strings in format and sub-type are accepted and preserved in
the record — the FileParameter, ImageParameter and ArrayParameter
declarations impose no constraint on it. -/
theorem c10_format_subtype_free (t fmt st : String)
    (h : t ∈ ["Number", "String", "integer", "float", "boolean", "string"]) :
    Except.map (fun m => List.map (fun p => (p.format, p.sub_type)) m.inputs)
      (validateDocument (docTypedParam t fmt st)) = Except.ok [(some fmt, some st)] := by
  simp only [List.mem_cons, List.not_mem_nil, or_false] at h
  rcases h with h | h | h | h | h | h <;> subst h <;> rfl

/-- C10 witness: the statement at a concrete non-special type with
concrete format and sub-type strings. -/
theorem c10_format_subtype_free_witness :
    Except.map (fun m => List.map (fun p => (p.format, p.sub_type)) m.inputs)
      (validateDocument (docTypedParam "string" "csv" "grayscale")) =
      Except.ok [(some "csv", some "grayscale")] :=
  c10_format_subtype_free "string" "csv" "grayscale" (by decide)

end Biomero
